import Mathlib

/-!
Shallow embedding of the reactive resource-cache layer of VRC-Circle:
the generic resource store (`resource-store.ts`), the account scope
(`account-scope.ts`), the singleton registry (`singleton-registry.ts`) and
the alert store (`alert-store.ts`).

Conventions of the embedding:
* JS numbers used as timestamps and durations are modelled as `Int`;
  `Date.now()` at the moment of a call is passed in as an explicit `now`
  argument.
* Listener callbacks are identified by numeric ids (`Nat`); invoking a
  listener is recorded as a pair of the listener id and the payload it was
  called with.  A `Set` of listeners is a duplicate-free `List Nat` in
  insertion order.
* A promise is identified by a numeric promise id allocated from a counter;
  the single settled outcome of a promise is recorded in an association
  list from promise id to `Except String T` (rejection reasons are
  strings).
* A TypeScript optional parameter of type `string | null` has three
  relevant shapes - absent, explicitly `null`, or a string - modelled as
  `Option (Option String)`: `none` is absent, `some none` is an explicit
  `null`, `some (some s)` is the string `s`.
* The per-store `Map<string, StoreState>` is modelled as a total function
  `String -> StoreState`; a key that was never written maps to the state a
  lazily created entry would have (`cache = null`, `inflight = null`,
  `updatedAt = 0`), which is observationally what `getState` produces.
-/

/-- `scopeId ?? DEFAULT_SCOPE_KEY` from `resource-store.ts`: the map key for a
scope, with the null scope stored under the sentinel key. -/
def scopeKey (scopeId : Option String) : String :=
  scopeId.getD "__no_active_account__"

/-- Per-scope cache entry, `StoreState<T>` of `resource-store.ts`.  The
in-flight promise is represented by its promise id. -/
structure StoreState (T : Type) where
  cache : Option T
  inflight : Option Nat
  updatedAt : Int
deriving DecidableEq, Repr

/-- The state a lazily created entry starts with (the fresh state `getState` builds). -/
def StoreState.empty (T : Type) : StoreState T :=
  { cache := none, inflight := none, updatedAt := 0 }

/-- The mutable fields of the generic `ResourceStore<T>` class: the staleness
window, the listener set, the per-scope-key state map and the cached active
account id. -/
structure ResourceStore (T : Type) where
  staleTime : Int
  listeners : List Nat
  states : String → StoreState T
  activeAccountId : Option String

/-- Pointwise update of the state map at one key (a `Map.set`). -/
def updState {T : Type} (f : String → StoreState T) (k : String) (v : StoreState T) :
    String → StoreState T :=
  fun k' => if k' = k then v else f k'

/-- Scope resolution used by `set`, `clear` and `markStale`:
`options.scopeId ?? this.activeAccountId` - both an absent and an explicitly
null `scopeId` resolve to the active account id. -/
def nullishScope (scopeOpt : Option (Option String)) (active : Option String) : Option String :=
  match scopeOpt with
  | some (some s) => some s
  | _ => active

/-- Scope resolution used by `ensure`:
`hasOwnProperty(options, "scopeId") ? options.scopeId ?? null : this.activeAccountId` -
an explicit null scope is kept as the null scope; only an absent one falls
back to the active account id. -/
def ensureScope (scopeOpt : Option (Option String)) (active : Option String) : Option String :=
  match scopeOpt with
  | some s => s
  | none => active

/-- `ResourceStore.isStale`: a missing cache value is always stale, otherwise
the value is stale exactly when `Date.now() - updatedAt > staleTime`. -/
def isStale {T : Type} (staleTime now : Int) (st : StoreState T) : Bool :=
  st.cache.isNone || decide (now - st.updatedAt > staleTime)

/-- `ResourceStore.getSnapshot(scopeId)`: pure read of the cached value of the
given scope. -/
def ResourceStore.getSnapshotAt {T : Type} (store : ResourceStore T) (scopeId : Option String) :
    Option T :=
  (store.states (scopeKey scopeId)).cache

/-- `ResourceStore.getSnapshot()` with the default argument
`scopeId = this.activeAccountId`. -/
def ResourceStore.getSnapshot {T : Type} (store : ResourceStore T) : Option T :=
  store.getSnapshotAt store.activeAccountId

/-- `Set.add`: appends the listener unless it is already registered. -/
def addListener (l : Nat) (ls : List Nat) : List Nat :=
  if l ∈ ls then ls else ls ++ [l]

/-- `Set.delete`: removes the listener. -/
def removeListener (l : Nat) (ls : List Nat) : List Nat :=
  ls.filter (fun x => x != l)

/-- `ResourceStore.set(value, options)`: writes the cache entry of the resolved
scope, stamps `updatedAt` with `now` unless the value is null or `stale` was
requested (then it is reset to 0), and emits to the listeners exactly when the
resolved scope equals the active account id.  The first component records the
notification calls the emit performs. -/
def ResourceStore.set {T : Type} (store : ResourceStore T) (now : Int) (value : Option T)
    (stale : Bool) (scopeOpt : Option (Option String)) :
    List (Nat × Option T) × ResourceStore T :=
  let scopeId := nullishScope scopeOpt store.activeAccountId
  let key := scopeKey scopeId
  let st := store.states key
  let st' : StoreState T :=
    { st with cache := value, updatedAt := if value.isSome && !stale then now else 0 }
  let ems := if scopeId = store.activeAccountId
    then store.listeners.map (fun l => (l, value)) else []
  (ems, { store with states := updState store.states key st' })

/-- `ResourceStore.clear(options)`: resolves the scope with `??` and delegates
to `set(null, { scopeId })`. -/
def ResourceStore.clear {T : Type} (store : ResourceStore T) (now : Int)
    (scopeOpt : Option (Option String)) : List (Nat × Option T) × ResourceStore T :=
  let scopeId := nullishScope scopeOpt store.activeAccountId
  store.set now none false (some scopeId)

/-- `ResourceStore.markStale(options)`: resolves the scope with `??` and, when
a cached value is present, resets its `updatedAt` to 0 without clearing it and
without notifying anyone. -/
def ResourceStore.markStale {T : Type} (store : ResourceStore T)
    (scopeOpt : Option (Option String)) : ResourceStore T :=
  let scopeId := nullishScope scopeOpt store.activeAccountId
  let key := scopeKey scopeId
  let st := store.states key
  if st.cache.isSome then
    { store with states := updState store.states key { st with updatedAt := 0 } }
  else store

/-- `ResourceStore.subscribe(listener)`: adds the listener and synchronously
replays the current snapshot of the active scope to it; the recorded calls are
the first component. -/
def ResourceStore.subscribe {T : Type} (store : ResourceStore T) (l : Nat) :
    List (Nat × Option T) × ResourceStore T :=
  let store' := { store with listeners := addListener l store.listeners }
  ([(l, store'.getSnapshot)], store')

/-- The disposer returned by `ResourceStore.subscribe`: deletes the listener. -/
def ResourceStore.unsubscribe {T : Type} (store : ResourceStore T) (l : Nat) : ResourceStore T :=
  { store with listeners := removeListener l store.listeners }

/-- Result of one `ensure()` call: either an immediately resolved cached value
or a promise id the caller awaits. -/
inductive EnsureResult (T : Type) where
  | cached (v : T)
  | promise (pid : Nat)
deriving DecidableEq, Repr

/-- A resource store together with the bookkeeping needed to talk about its
asynchronous behaviour: how many times the resource-specific `load()` has been
invoked, the next fresh promise id, and the settled outcome of each promise. -/
structure Machine (T : Type) where
  store : ResourceStore T
  loadCount : Nat
  nextPid : Nat
  outcomes : List (Nat × Except String T)

/-- The tail of `ensure()` after the freshness check: if an `inflightFetch`
exists for the target scope, return that same promise; otherwise invoke
`load(targetScopeId)` (counted in `loadCount`), store the fresh promise as the
scope `inflightFetch` slot and return it. -/
def Machine.startFetch {T : Type} (m : Machine T) (targetScopeId : Option String) :
    EnsureResult T × Machine T :=
  let key := scopeKey targetScopeId
  let st := m.store.states key
  match st.inflight with
  | some p => (EnsureResult.promise p, m)
  | none =>
      (EnsureResult.promise m.nextPid,
        { m with
            store := { m.store with
              states := updState m.store.states key { st with inflight := some m.nextPid } },
            loadCount := m.loadCount + 1,
            nextPid := m.nextPid + 1 })

/-- `ResourceStore.ensure(options)` up to its first await point (everything in
the method body runs synchronously): resolve the target scope, return the
cached value when it is present, fresh and `force` is not set (when the cache
is absent `isStale` is true, so the fall-through mirrors the
`state.cache && !this.isStale(state)` conjunction), and otherwise join or
start a fetch. -/
def Machine.ensure {T : Type} (m : Machine T) (now : Int) (force : Bool)
    (scopeOpt : Option (Option String)) : EnsureResult T × Machine T :=
  let targetScopeId := ensureScope scopeOpt m.store.activeAccountId
  let st := m.store.states (scopeKey targetScopeId)
  match st.cache with
  | some v =>
      if !force && !(isStale m.store.staleTime now st) then (EnsureResult.cached v, m)
      else m.startFetch targetScopeId
  | none => m.startFetch targetScopeId

/-- `refresh()` is `ensure({ force: true })`. -/
def Machine.refresh {T : Type} (m : Machine T) (now : Int) : EnsureResult T × Machine T :=
  m.ensure now true none

/-- The continuation attached to the load promise, run when `load()` resolves
with `v`: the `.then` calls `this.set(value, { scopeId: targetScopeId })`
(re-resolved against the active account id at completion time), the
`.finally` clears the `inflightFetch` slot captured at `ensure` time, and the
promise settles with `Ok v`. -/
def Machine.settleOk {T : Type} (m : Machine T) (now : Int) (targetScopeId : Option String)
    (pid : Nat) (v : T) : List (Nat × Option T) × Machine T :=
  let r := m.store.set now (some v) false (some targetScopeId)
  let key := scopeKey targetScopeId
  let store2 := { r.2 with
    states := updState r.2.states key { r.2.states key with inflight := none } }
  (r.1, { m with store := store2, outcomes := (pid, Except.ok v) :: m.outcomes })

/-- The continuation run when `load()` rejects with error `e`: the `.then`
handler is skipped, only the `.finally` runs and clears the `inflightFetch`
slot; the cache entry is untouched and the promise settles with `Error e`. -/
def Machine.settleErr {T : Type} (m : Machine T) (targetScopeId : Option String)
    (pid : Nat) (e : String) : Machine T :=
  let key := scopeKey targetScopeId
  { m with
      store := { m.store with
        states := updState m.store.states key
          { m.store.states key with inflight := none } },
      outcomes := (pid, Except.error e) :: m.outcomes }

/-- A burst of consecutive `ensure()` calls (one per listed call time) with the
same options, with no other event-loop turn in between. -/
def Machine.ensureN {T : Type} (m : Machine T) (times : List Int) (force : Bool)
    (scopeOpt : Option (Option String)) : List (EnsureResult T) × Machine T :=
  match times with
  | [] => ([], m)
  | t :: ts =>
      let r := m.ensure t force scopeOpt
      let rest := r.2.ensureN ts force scopeOpt
      (r.1 :: rest.1, rest.2)

/-- The state of the scope an `ensure` call with the given options targets. -/
def Machine.scopeState {T : Type} (m : Machine T) (scopeOpt : Option (Option String)) :
    StoreState T :=
  m.store.states (scopeKey (ensureScope scopeOpt m.store.activeAccountId))

/-!  Account scope (`account-scope.ts`). -/

/-- The module-level mutable state of `account-scope.ts`: the current account
id and the listener set. -/
structure AccountScope where
  currentAccountId : Option String
  listeners : List Nat
deriving DecidableEq, Repr

/-- `getActiveAccountId()`. -/
def AccountScope.getActiveAccountId (sc : AccountScope) : Option String :=
  sc.currentAccountId

/-- `setActiveAccountId(accountId)`: returns early when the id is unchanged;
otherwise stores the new id and notifies every listener with it.  The second
component records the notification calls the loop performs. -/
def AccountScope.setActiveAccountId (sc : AccountScope) (accountId : Option String) :
    AccountScope × List (Nat × Option String) :=
  if sc.currentAccountId = accountId then (sc, [])
  else ({ sc with currentAccountId := accountId },
        sc.listeners.map (fun l => (l, accountId)))

/-- `subscribeActiveAccount(listener)`: adds the listener and synchronously
replays the current account id to it. -/
def AccountScope.subscribeActiveAccount (sc : AccountScope) (l : Nat) :
    List (Nat × Option String) × AccountScope :=
  let sc' := { sc with listeners := addListener l sc.listeners }
  ([(l, sc.currentAccountId)], sc')

/-- The disposer returned by `subscribeActiveAccount`: deletes the listener. -/
def AccountScope.unsubscribeActiveAccount (sc : AccountScope) (l : Nat) : AccountScope :=
  { sc with listeners := removeListener l sc.listeners }

/-!  The notification loop (`ResourceStore.emit`, `AlertStore.emit`, and the
listener loop inside `setActiveAccountId` all have this exact shape). -/

/-- Runs the recorded notification calls in order.  Each listener body is
modelled by `behave`; a listener that throws (`Except.error`) is caught, its
error is appended to the log, and the loop continues with the remaining
listeners.  Returns the calls that were actually started and the log of caught
errors. -/
def deliver {A : Type} (behave : Nat → A → Except String Unit) :
    List (Nat × A) → List (Nat × A) × List String
  | [] => ([], [])
  | (l, v) :: rest =>
      let r := deliver behave rest
      match behave l v with
      | Except.ok _ => ((l, v) :: r.1, r.2)
      | Except.error e => ((l, v) :: r.1, e :: r.2)

/-- `ResourceStore.set` composed with the delivery of its notifications:
returns the updated store, the calls actually made, and the caught-error
log. -/
def ResourceStore.setDeliver {T : Type} (store : ResourceStore T)
    (behave : Nat → Option T → Except String Unit) (now : Int) (value : Option T)
    (stale : Bool) (scopeOpt : Option (Option String)) :
    ResourceStore T × List (Nat × Option T) × List String :=
  let r := store.set now value stale scopeOpt
  let d := deliver behave r.1
  (r.2, d.1, d.2)

/-- `setActiveAccountId` composed with the delivery of its notifications. -/
def AccountScope.setActiveAccountIdDeliver (sc : AccountScope)
    (behave : Nat → Option String → Except String Unit) (accountId : Option String) :
    AccountScope × List (Nat × Option String) × List String :=
  let r := sc.setActiveAccountId accountId
  let d := deliver behave r.2
  (r.1, d.1, d.2)

/-!  Singleton registry (`singleton-registry.ts`). -/

/-- The process-wide `globalThis.__STORE_SINGLETONS__` table. -/
structure Registry (V : Type) where
  entries : List (String × V)

/-- `registry[key]` lookup. -/
def Registry.lookup {V : Type} (r : Registry V) (k : String) : Option V :=
  List.lookup k r.entries

/-- `registerSingleton(key, factory)`.  The guard is `if (!registry[key])`:
JavaScript truthiness of the stored value, supplied as the `truthy`
predicate (every value actually registered is a class instance, hence
truthy).  When the guard passes, `factory()` runs and its result is stored;
`registry[key]` is then returned.  The third component records whether the
factory was executed by this call. -/
def registerSingleton {V : Type} (truthy : V → Bool) (r : Registry V) (key : String)
    (factory : Unit → V) : V × Registry V × Bool :=
  match r.lookup key with
  | some v =>
      if truthy v then (v, r, false)
      else
        let v' := factory ()
        (v', ⟨(key, v') :: r.entries⟩, true)
  | none =>
      let v' := factory ()
      (v', ⟨(key, v') :: r.entries⟩, true)

/-- `getSingleton(key)`: lookup without construction. -/
def getSingleton {V : Type} (r : Registry V) (key : String) : Option V :=
  r.lookup key

/-!  Alert store (`alert-store.ts`). -/

/-- An alert record.  `id` and `createdAt` are generated by `addAlert`; the
`onClick` action and `metadata` play no role in any store operation and are
omitted. -/
structure Alert where
  id : String
  variant : String
  message : String
  dismissable : Bool
  createdAt : Int
deriving DecidableEq, Repr

/-- The partial update accepted by `updateAlert` (a `Partial<...>` object
spread over the existing alert). -/
structure AlertUpdate where
  variant : Option String
  message : Option String
  dismissable : Option Bool
deriving Repr

/-- `{ ...old, ...updates }`. -/
def applyUpdate (a : Alert) (u : AlertUpdate) : Alert :=
  { a with
      variant := u.variant.getD a.variant,
      message := u.message.getD a.message,
      dismissable := u.dismissable.getD a.dismissable }

/-- The `cache` field of `AlertStore`: the alert list and the carousel
index.  The index is modelled as `Int` (a JS number), so its non-negativity
is part of what the invariant theorem proves. -/
structure AlertState where
  alerts : List Alert
  currentIndex : Int
deriving DecidableEq, Repr

/-- The `AlertStore` class state: listener set plus cache. -/
structure AlertStore where
  listeners : List Nat
  cache : AlertState
deriving DecidableEq, Repr

/-- The initial `AlertStore` state: no alerts, index 0, no listeners. -/
def AlertStore.initial : AlertStore :=
  { listeners := [], cache := { alerts := [], currentIndex := 0 } }

/-- `getSnapshot()`: a (value-equal) copy of the cache. -/
def AlertStore.getSnapshot (st : AlertStore) : AlertState :=
  st.cache

/-- `AlertStore.subscribe(listener)`: adds the listener and synchronously
replays the current snapshot to it. -/
def AlertStore.subscribe (st : AlertStore) (l : Nat) :
    List (Nat × AlertState) × AlertStore :=
  let st' := { st with listeners := addListener l st.listeners }
  ([(l, st'.getSnapshot)], st')

/-- The disposer returned by `AlertStore.subscribe`. -/
def AlertStore.unsubscribe (st : AlertStore) (l : Nat) : AlertStore :=
  { st with listeners := removeListener l st.listeners }

/-- `addAlert(alert)`: appends the new alert (with its generated `id` and
`createdAt`, supplied here by the caller as part of `a`), emits the new
snapshot, and returns the id.  The middle component records the emit calls. -/
def AlertStore.addAlert (st : AlertStore) (a : Alert) :
    String × List (Nat × AlertState) × AlertStore :=
  let cache' : AlertState := { st.cache with alerts := st.cache.alerts ++ [a] }
  let st' := { st with cache := cache' }
  (a.id, st'.listeners.map (fun l => (l, cache')), st')

/-- `updateAlert(id, updates)`: merges the updates into the first alert with
the given id and emits; returns `false` and leaves the state unchanged when no
alert matches. -/
def AlertStore.updateAlert (st : AlertStore) (aid : String) (u : AlertUpdate) :
    Bool × List (Nat × AlertState) × AlertStore :=
  match st.cache.alerts.findIdx? (fun a => a.id == aid) with
  | none => (false, [], st)
  | some i =>
      let old := st.cache.alerts.getD i ⟨"", "", "", false, 0⟩
      let cache' : AlertState := { st.cache with alerts := st.cache.alerts.set i (applyUpdate old u) }
      let st' := { st with cache := cache' }
      (true, st'.listeners.map (fun l => (l, cache')), st')

/-- `removeAlert(id)`: filters the alert out (the list assignment is
unconditional); when the list shrank, the index is re-clamped
(`currentIndex >= length` with a non-empty list clamps to `length - 1`, an
empty list resets to 0) and the new snapshot is emitted. -/
def AlertStore.removeAlert (st : AlertStore) (aid : String) :
    Bool × List (Nat × AlertState) × AlertStore :=
  let initialLength := st.cache.alerts.length
  let alerts' := st.cache.alerts.filter (fun a => !(a.id == aid))
  if alerts'.length < initialLength then
    let idx :=
      if st.cache.currentIndex ≥ (alerts'.length : Int) ∧ 0 < alerts'.length then
        (alerts'.length : Int) - 1
      else if alerts'.length = 0 then 0
      else st.cache.currentIndex
    let cache' : AlertState := { alerts := alerts', currentIndex := idx }
    let st' := { st with cache := cache' }
    (true, st'.listeners.map (fun l => (l, cache')), st')
  else (false, [], { st with cache := { st.cache with alerts := alerts' } })

/-- `clearAll()`: empties the list, resets the index and emits. -/
def AlertStore.clearAll (st : AlertStore) : List (Nat × AlertState) × AlertStore :=
  let cache' : AlertState := { alerts := [], currentIndex := 0 }
  let st' := { st with cache := cache' }
  (st'.listeners.map (fun l => (l, cache')), st')

/-- `clearDismissable()`: filters out the dismissable alerts (the list
assignment is unconditional) and, when the list shrank, re-clamps the index
with the same rule as `removeAlert` and emits. -/
def AlertStore.clearDismissable (st : AlertStore) : List (Nat × AlertState) × AlertStore :=
  let initialLength := st.cache.alerts.length
  let alerts' := st.cache.alerts.filter (fun a => !a.dismissable)
  if alerts'.length < initialLength then
    let idx :=
      if st.cache.currentIndex ≥ (alerts'.length : Int) ∧ 0 < alerts'.length then
        (alerts'.length : Int) - 1
      else if alerts'.length = 0 then 0
      else st.cache.currentIndex
    let cache' : AlertState := { alerts := alerts', currentIndex := idx }
    let st' := { st with cache := cache' }
    (st'.listeners.map (fun l => (l, cache')), st')
  else ([], { st with cache := { st.cache with alerts := alerts' } })

/-- `nextAlert()`: circular increment modulo the length, no-op when empty.
The JS `%` on the nonnegative operands occurring here agrees with `Int.emod`. -/
def AlertStore.nextAlert (st : AlertStore) : List (Nat × AlertState) × AlertStore :=
  if st.cache.alerts.length = 0 then ([], st)
  else
    let cache' : AlertState :=
      { st.cache with currentIndex := (st.cache.currentIndex + 1) % (st.cache.alerts.length : Int) }
    let st' := { st with cache := cache' }
    (st'.listeners.map (fun l => (l, cache')), st')

/-- `previousAlert()`: circular decrement, no-op when empty. -/
def AlertStore.previousAlert (st : AlertStore) : List (Nat × AlertState) × AlertStore :=
  if st.cache.alerts.length = 0 then ([], st)
  else
    let cache' : AlertState :=
      { st.cache with currentIndex :=
          if st.cache.currentIndex = 0 then (st.cache.alerts.length : Int) - 1
          else st.cache.currentIndex - 1 }
    let st' := { st with cache := cache' }
    (st'.listeners.map (fun l => (l, cache')), st')

/-- `setCurrentIndex(index)`: out-of-range indices are rejected with a logged
warning and no state change; in-range indices are stored and emitted. -/
def AlertStore.setCurrentIndex (st : AlertStore) (index : Int) :
    List (Nat × AlertState) × AlertStore :=
  if index < 0 ∨ (st.cache.alerts.length : Int) ≤ index then ([], st)
  else
    let cache' : AlertState := { st.cache with currentIndex := index }
    let st' := { st with cache := cache' }
    (st'.listeners.map (fun l => (l, cache')), st')

/-- `addAlert` composed with the delivery of its notifications. -/
def AlertStore.addAlertDeliver (st : AlertStore)
    (behave : Nat → AlertState → Except String Unit) (a : Alert) :
    AlertStore × List (Nat × AlertState) × List String :=
  let r := st.addAlert a
  let d := deliver behave r.2.1
  (r.2.2, d.1, d.2)

/-- The `currentIndex` invariant stated by the specification:
`0 <= currentIndex < length` whenever the list is non-empty, and
`currentIndex = 0` when it is empty. -/
def alertInvariant (s : AlertState) : Prop :=
  (0 < s.alerts.length → 0 ≤ s.currentIndex ∧ s.currentIndex < (s.alerts.length : Int)) ∧
  (s.alerts.length = 0 → s.currentIndex = 0)

instance (s : AlertState) : Decidable (alertInvariant s) := by
  unfold alertInvariant; infer_instance

/-!  Concrete fixtures used by witnesses and counterexamples. -/

/-- A small avatars-like store: staleness window 1000ms, one listener (id 0),
empty cache, active account `"b"`. -/
def natStoreB : ResourceStore Nat :=
  { staleTime := 1000, listeners := [0], states := fun _ => StoreState.empty Nat,
    activeAccountId := some "b" }

/-- `natStoreB` wrapped in the asynchronous bookkeeping with next promise
id 7. -/
def natMachineB : Machine Nat :=
  { store := natStoreB, loadCount := 0, nextPid := 7, outcomes := [] }

/-!  Helper lemmas about the embedding. -/

theorem updState_same {T : Type} (f : String → StoreState T) (k : String) (v : StoreState T) :
    updState f k v k = v := by
  simp [updState]

theorem updState_other {T : Type} (f : String → StoreState T) (k k' : String) (v : StoreState T)
    (h : k' ≠ k) : updState f k v k' = f k' := by
  simp [updState, h]

theorem isStale_set_inflight {T : Type} (w t : Int) (st : StoreState T) (x : Option Nat) :
    isStale w t { st with inflight := x } = isStale w t st := rfl

/-- Characterization of `ensure` when no fetch is in flight and the cached
value is not usable (absent, stale, or bypassed by `force`): the fetch path is
taken, one `load()` starts and a fresh promise is handed out. -/
theorem ensure_starts_fetch {T : Type} (m : Machine T) (t : Int) (force : Bool)
    (scopeOpt : Option (Option String))
    (hin : (m.scopeState scopeOpt).inflight = none)
    (hns : force = true ∨ isStale m.store.staleTime t (m.scopeState scopeOpt) = true) :
    m.ensure t force scopeOpt =
      (EnsureResult.promise m.nextPid,
        { m with
            store := { m.store with
              states := updState m.store.states
                (scopeKey (ensureScope scopeOpt m.store.activeAccountId))
                { m.scopeState scopeOpt with inflight := some m.nextPid } },
            loadCount := m.loadCount + 1,
            nextPid := m.nextPid + 1 }) := by
  unfold Machine.scopeState at hin hns
  unfold Machine.ensure Machine.startFetch Machine.scopeState
  cases hc : (m.store.states (scopeKey (ensureScope scopeOpt m.store.activeAccountId))).cache with
  | none => simp [hc, hin]
  | some v =>
      have hcond : (!force &&
          !(isStale m.store.staleTime t
            (m.store.states (scopeKey (ensureScope scopeOpt m.store.activeAccountId))))) = false := by
        rcases hns with h | h
        · simp [h]
        · simp [h]
      simp [hc, hcond, hin]

/-- Characterization of `ensure` when a fetch is already in flight and the
cached value is still not usable: the caller joins the existing promise and
nothing changes. -/
theorem ensure_joins_fetch {T : Type} (m : Machine T) (t : Int) (force : Bool)
    (scopeOpt : Option (Option String)) (pid : Nat)
    (hin : (m.scopeState scopeOpt).inflight = some pid)
    (hns : force = true ∨ isStale m.store.staleTime t (m.scopeState scopeOpt) = true) :
    m.ensure t force scopeOpt = (EnsureResult.promise pid, m) := by
  unfold Machine.scopeState at hin hns
  unfold Machine.ensure Machine.startFetch
  cases hc : (m.store.states (scopeKey (ensureScope scopeOpt m.store.activeAccountId))).cache with
  | none => simp [hc, hin]
  | some v =>
      have hcond : (!force &&
          !(isStale m.store.staleTime t
            (m.store.states (scopeKey (ensureScope scopeOpt m.store.activeAccountId))))) = false := by
        rcases hns with h | h
        · simp [h]
        · simp [h]
      simp [hc, hcond, hin]

/-- A whole burst of `ensure` calls joins an in-flight fetch: every caller
gets the same promise and the machine is untouched. -/
theorem ensureN_joins_fetch {T : Type} (m : Machine T) (times : List Int) (force : Bool)
    (scopeOpt : Option (Option String)) (pid : Nat)
    (hin : (m.scopeState scopeOpt).inflight = some pid)
    (hns : ∀ t ∈ times, force = true ∨ isStale m.store.staleTime t (m.scopeState scopeOpt) = true) :
    m.ensureN times force scopeOpt =
      (List.replicate times.length (EnsureResult.promise pid), m) := by
  induction times with
  | nil => simp [Machine.ensureN]
  | cons t ts ih =>
      have hstep := ensure_joins_fetch m t force scopeOpt pid hin (hns t (by simp))
      simp only [Machine.ensureN, hstep]
      rw [ih (fun t' ht' => hns t' (List.mem_cons_of_mem _ ht'))]
      simp [List.replicate]

/-- C1: Fan-in of concurrent fetches.  For every store and scope, if `N >= 1`
`ensure()` calls are made for the same (store, scope) while no fresh cached
value exists (and no fetch is yet in flight), exactly one `load()` invocation
occurs, every caller receives the same promise, and the single settled outcome
of that promise - the value on resolution, the error on rejection - is what
every caller observes. -/
theorem fanIn_single_load {T : Type} (m : Machine T) (t0 : Int) (ts : List Int) (force : Bool)
    (scopeOpt : Option (Option String)) (v : T) (e : String) (now2 : Int)
    (hin : (m.scopeState scopeOpt).inflight = none)
    (hns : ∀ t ∈ t0 :: ts,
      force = true ∨ isStale m.store.staleTime t (m.scopeState scopeOpt) = true) :
    (m.ensureN (t0 :: ts) force scopeOpt).1 =
      List.replicate (ts.length + 1) (EnsureResult.promise m.nextPid) ∧
    (m.ensureN (t0 :: ts) force scopeOpt).2.loadCount = m.loadCount + 1 ∧
    (m.ensureN (t0 :: ts) force scopeOpt).2.nextPid = m.nextPid + 1 ∧
    ((m.ensureN (t0 :: ts) force scopeOpt).2.settleOk now2
        (ensureScope scopeOpt m.store.activeAccountId) m.nextPid v).2.outcomes.lookup m.nextPid =
      some (Except.ok v) ∧
    ((m.ensureN (t0 :: ts) force scopeOpt).2.settleErr
        (ensureScope scopeOpt m.store.activeAccountId) m.nextPid e).outcomes.lookup m.nextPid =
      some (Except.error e) := by
  have hstep := ensure_starts_fetch m t0 force scopeOpt hin (hns t0 (by simp))
  have hact1 : ((m.ensure t0 force scopeOpt).2).store.activeAccountId =
      m.store.activeAccountId := by rw [hstep]
  have hin1 : (((m.ensure t0 force scopeOpt).2).scopeState scopeOpt).inflight =
      some m.nextPid := by
    rw [hstep]
    simp [Machine.scopeState, updState_same]
  have hns1 : ∀ t ∈ ts, force = true ∨
      isStale ((m.ensure t0 force scopeOpt).2).store.staleTime t
        (((m.ensure t0 force scopeOpt).2).scopeState scopeOpt) = true := by
    intro t ht
    rcases hns t (List.mem_cons_of_mem _ ht) with h | h
    · exact Or.inl h
    · right
      rw [hstep]
      simp only [Machine.scopeState, updState_same]
      rw [isStale_set_inflight]
      exact h
  have hrest := ensureN_joins_fetch ((m.ensure t0 force scopeOpt).2) ts force scopeOpt
    m.nextPid hin1 hns1
  have hfull : m.ensureN (t0 :: ts) force scopeOpt =
      (EnsureResult.promise m.nextPid ::
        List.replicate ts.length (EnsureResult.promise m.nextPid),
        (m.ensure t0 force scopeOpt).2) := by
    simp only [Machine.ensureN]
    rw [hrest, hstep]
  refine ⟨?_, ?_, ?_, ?_, ?_⟩
  · rw [hfull]
    simp [List.replicate_succ]
  · rw [hfull, hstep]
  · rw [hfull, hstep]
  · rw [hfull]
    simp [Machine.settleOk, List.lookup]
  · rw [hfull]
    simp [Machine.settleErr, List.lookup]

/-- Witness for C1 at a concrete machine: three concurrent `ensure()` calls on
the empty active scope of `natMachineB`. -/
theorem fanIn_single_load_witness :
    ((natMachineB.scopeState none).inflight = none ∧
      (∀ t ∈ [(0 : Int), 0, 0], false = true ∨
        isStale natMachineB.store.staleTime t (natMachineB.scopeState none) = true)) ∧
    ((natMachineB.ensureN [0, 0, 0] false none).1 =
        List.replicate (2 + 1) (EnsureResult.promise natMachineB.nextPid) ∧
      (natMachineB.ensureN [0, 0, 0] false none).2.loadCount = natMachineB.loadCount + 1 ∧
      (natMachineB.ensureN [0, 0, 0] false none).2.nextPid = natMachineB.nextPid + 1 ∧
      ((natMachineB.ensureN [0, 0, 0] false none).2.settleOk 5
          (ensureScope none natMachineB.store.activeAccountId) natMachineB.nextPid
          42).2.outcomes.lookup natMachineB.nextPid = some (Except.ok 42) ∧
      ((natMachineB.ensureN [0, 0, 0] false none).2.settleErr
          (ensureScope none natMachineB.store.activeAccountId) natMachineB.nextPid
          "network").outcomes.lookup natMachineB.nextPid = some (Except.error "network")) :=
  ⟨⟨by decide, by decide⟩,
    fanIn_single_load natMachineB 0 [0, 0] false none 42 "network" 5 (by decide) (by decide)⟩

/-- C2: Fetch-failure atomicity and clean retry.  If the single started
`load()` rejects with `e`, the promise every caller holds settles with that
same error, the cache entry of the scope (value and `updatedAt`) is exactly as it
was before the attempt, the in-flight slot is cleared, and a subsequent
`ensure()` starts a brand-new `load()` with a fresh promise instead of reusing
the failed one. -/
theorem fetch_failure_clean_retry {T : Type} (m : Machine T) (t1 t2 : Int) (force force2 : Bool)
    (scopeOpt : Option (Option String)) (e : String)
    (hin : (m.scopeState scopeOpt).inflight = none)
    (h1 : force = true ∨ isStale m.store.staleTime t1 (m.scopeState scopeOpt) = true)
    (h2 : force2 = true ∨ isStale m.store.staleTime t2 (m.scopeState scopeOpt) = true) :
    (m.ensure t1 force scopeOpt).1 = EnsureResult.promise m.nextPid ∧
    (((m.ensure t1 force scopeOpt).2.settleErr (ensureScope scopeOpt m.store.activeAccountId)
        m.nextPid e).scopeState scopeOpt).cache = (m.scopeState scopeOpt).cache ∧
    (((m.ensure t1 force scopeOpt).2.settleErr (ensureScope scopeOpt m.store.activeAccountId)
        m.nextPid e).scopeState scopeOpt).updatedAt = (m.scopeState scopeOpt).updatedAt ∧
    (((m.ensure t1 force scopeOpt).2.settleErr (ensureScope scopeOpt m.store.activeAccountId)
        m.nextPid e).scopeState scopeOpt).inflight = none ∧
    ((m.ensure t1 force scopeOpt).2.settleErr (ensureScope scopeOpt m.store.activeAccountId)
        m.nextPid e).outcomes.lookup m.nextPid = some (Except.error e) ∧
    (((m.ensure t1 force scopeOpt).2.settleErr (ensureScope scopeOpt m.store.activeAccountId)
        m.nextPid e).ensure t2 force2 scopeOpt).1 = EnsureResult.promise (m.nextPid + 1) ∧
    (((m.ensure t1 force scopeOpt).2.settleErr (ensureScope scopeOpt m.store.activeAccountId)
        m.nextPid e).ensure t2 force2 scopeOpt).2.loadCount = m.loadCount + 2 := by
  have hstep := ensure_starts_fetch m t1 force scopeOpt hin h1
  have hm2state : (((m.ensure t1 force scopeOpt).2.settleErr
      (ensureScope scopeOpt m.store.activeAccountId) m.nextPid e).scopeState scopeOpt) =
      { m.scopeState scopeOpt with inflight := none } := by
    rw [hstep]
    simp [Machine.settleErr, Machine.scopeState, updState_same]
  have hm2stale : ((m.ensure t1 force scopeOpt).2.settleErr
      (ensureScope scopeOpt m.store.activeAccountId) m.nextPid e).store.staleTime =
      m.store.staleTime := by
    rw [hstep]
    rfl
  have hm2pid : ((m.ensure t1 force scopeOpt).2.settleErr
      (ensureScope scopeOpt m.store.activeAccountId) m.nextPid e).nextPid = m.nextPid + 1 := by
    rw [hstep]
    rfl
  have hm2load : ((m.ensure t1 force scopeOpt).2.settleErr
      (ensureScope scopeOpt m.store.activeAccountId) m.nextPid e).loadCount =
      m.loadCount + 1 := by
    rw [hstep]
    rfl
  have hin2 : (((m.ensure t1 force scopeOpt).2.settleErr
      (ensureScope scopeOpt m.store.activeAccountId) m.nextPid e).scopeState scopeOpt).inflight =
      none := by
    rw [hm2state]
  have hns2 : force2 = true ∨ isStale ((m.ensure t1 force scopeOpt).2.settleErr
      (ensureScope scopeOpt m.store.activeAccountId) m.nextPid e).store.staleTime t2
      (((m.ensure t1 force scopeOpt).2.settleErr (ensureScope scopeOpt m.store.activeAccountId)
        m.nextPid e).scopeState scopeOpt) = true := by
    rcases h2 with h | h
    · exact Or.inl h
    · right
      rw [hm2state, hm2stale, isStale_set_inflight]
      exact h
  have hretry := ensure_starts_fetch ((m.ensure t1 force scopeOpt).2.settleErr
    (ensureScope scopeOpt m.store.activeAccountId) m.nextPid e) t2 force2 scopeOpt hin2 hns2
  refine ⟨?_, ?_, ?_, ?_, ?_, ?_, ?_⟩
  · rw [hstep]
  · rw [hm2state]
  · rw [hm2state]
  · rw [hm2state]
  · rw [hstep]
    simp [Machine.settleErr, List.lookup]
  · rw [hretry, hm2pid]
  · rw [hretry, hm2load]

/-- Witness for C2 at a concrete machine: a failed fetch on the empty active
scope of `natMachineB`, followed by a clean retry. -/
theorem fetch_failure_clean_retry_witness :
    ((natMachineB.scopeState none).inflight = none ∧
      (false = true ∨ isStale natMachineB.store.staleTime 0 (natMachineB.scopeState none) = true) ∧
      (false = true ∨
        isStale natMachineB.store.staleTime 1 (natMachineB.scopeState none) = true)) ∧
    ((natMachineB.ensure 0 false none).1 = EnsureResult.promise natMachineB.nextPid ∧
      (((natMachineB.ensure 0 false none).2.settleErr
          (ensureScope none natMachineB.store.activeAccountId) natMachineB.nextPid
          "network").scopeState none).cache = (natMachineB.scopeState none).cache ∧
      (((natMachineB.ensure 0 false none).2.settleErr
          (ensureScope none natMachineB.store.activeAccountId) natMachineB.nextPid
          "network").scopeState none).updatedAt = (natMachineB.scopeState none).updatedAt ∧
      (((natMachineB.ensure 0 false none).2.settleErr
          (ensureScope none natMachineB.store.activeAccountId) natMachineB.nextPid
          "network").scopeState none).inflight = none ∧
      ((natMachineB.ensure 0 false none).2.settleErr
          (ensureScope none natMachineB.store.activeAccountId) natMachineB.nextPid
          "network").outcomes.lookup natMachineB.nextPid = some (Except.error "network") ∧
      (((natMachineB.ensure 0 false none).2.settleErr
          (ensureScope none natMachineB.store.activeAccountId) natMachineB.nextPid
          "network").ensure 1 false none).1 = EnsureResult.promise (natMachineB.nextPid + 1) ∧
      (((natMachineB.ensure 0 false none).2.settleErr
          (ensureScope none natMachineB.store.activeAccountId) natMachineB.nextPid
          "network").ensure 1 false none).2.loadCount = natMachineB.loadCount + 2) :=
  ⟨⟨by decide, by decide, by decide⟩,
    fetch_failure_clean_retry natMachineB 0 1 false false none "network"
      (by decide) (by decide) (by decide)⟩

/-- C3 counterexample: with staleness window `W = 1000` and a value set at
`t0 = 0`, the read at `t = 1000` satisfies `t >= t0 + W`, where the claim
demands `stale = true`, yet `isStale` (which tests `now - updatedAt > staleTime`
strictly) reports `stale = false`. -/
theorem staleness_boundary_cex :
    (0 : Int) + 1000 ≤ 1000 ∧
    isStale 1000 1000 ((natStoreB.set 0 (some 7) false none).2.states (scopeKey (some "b"))) =
      false := by
  constructor
  · decide
  · decide

/-- C3 (amended): for a store with staleness window `W`, a value set at time
`t0` with `stale` not requested is reported `stale = false` by the staleness
check for every read at `t <= t0 + W`, and `stale = true` for every read at
`t > t0 + W` (the code compares the age to the window strictly, so the
boundary instant `t = t0 + W` itself is still fresh). -/
theorem staleness_boundary_amended {T : Type} (store : ResourceStore T) (t0 t : Int) (v : T)
    (scopeOpt : Option (Option String)) :
    (t ≤ t0 + store.staleTime →
      isStale store.staleTime t
        ((store.set t0 (some v) false scopeOpt).2.states
          (scopeKey (nullishScope scopeOpt store.activeAccountId))) = false) ∧
    (t0 + store.staleTime < t →
      isStale store.staleTime t
        ((store.set t0 (some v) false scopeOpt).2.states
          (scopeKey (nullishScope scopeOpt store.activeAccountId))) = true) := by
  have hst : (store.set t0 (some v) false scopeOpt).2.states
      (scopeKey (nullishScope scopeOpt store.activeAccountId)) =
      { store.states (scopeKey (nullishScope scopeOpt store.activeAccountId)) with
          cache := some v, updatedAt := t0 } := by
    simp [ResourceStore.set, updState_same]
  rw [hst]
  constructor
  · intro h
    simp [isStale]
    omega
  · intro h
    simp [isStale]
    omega

/-- Witness for C3 (amended) at a concrete store: window 1000, set at 0,
reads at 1000 (fresh) and 1001 (stale). -/
theorem staleness_boundary_amended_witness :
    ((1000 : Int) ≤ 0 + 1000 ∧
      isStale 1000 1000 ((natStoreB.set 0 (some 7) false none).2.states
        (scopeKey (nullishScope none natStoreB.activeAccountId))) = false) ∧
    ((0 : Int) + 1000 < 1001 ∧
      isStale 1000 1001 ((natStoreB.set 0 (some 7) false none).2.states
        (scopeKey (nullishScope none natStoreB.activeAccountId))) = true) :=
  ⟨⟨by decide, (staleness_boundary_amended natStoreB 0 1000 7 none).1 (by decide)⟩,
    ⟨by decide, (staleness_boundary_amended natStoreB 0 1001 7 none).2 (by decide)⟩⟩

/-- C4 counterexample: with active scope `B = "b"` and one subscriber, the
write `set(7, {scopeId: null})` targets a scope identifier `A = null` distinct
from `B`, yet it notifies the subscriber, changes `getSnapshot(B)` from `none`
to `some 7` and leaves `getSnapshot(A)` unchanged (`none`, not the written
value) - because `set` resolves `scopeId ?? activeAccountId`, aliasing the
explicit null scope to the active one. -/
theorem scope_isolation_cex :
    (none : Option String) ≠ natStoreB.activeAccountId ∧
    (natStoreB.set 5 (some 7) false (some none)).1 = [(0, some 7)] ∧
    natStoreB.getSnapshotAt (some "b") = none ∧
    (natStoreB.set 5 (some 7) false (some none)).2.getSnapshotAt (some "b") = some 7 ∧
    (natStoreB.set 5 (some 7) false (some none)).2.getSnapshotAt none = none := by
  refine ⟨by decide, by decide, by decide, by decide, by decide⟩

/-- C4 (amended): for every non-null scope identifier `A = some s` whose
storage key differs from the key of the active scope (in particular `A` distinct
from the active scope `B`, and `A` not the reserved sentinel key when `B` is
null), `set(v, {scopeId: A})` invokes no subscriber and leaves
`getSnapshot(B)` unchanged, while `getSnapshot(A)` afterwards returns `v`;
and in general subscribers are notified only when the resolved written scope
equals the currently active scope. -/
theorem scope_isolation_amended {T : Type} (store : ResourceStore T) (now : Int)
    (value : Option T) (stale : Bool) (s : String) (store2 : ResourceStore T) (now2 : Int)
    (value2 : Option T) (stale2 : Bool) (scopeOpt2 : Option (Option String))
    (hkey : s ≠ scopeKey store.activeAccountId) :
    (store.set now value stale (some (some s))).1 = [] ∧
    (store.set now value stale (some (some s))).2.getSnapshot = store.getSnapshot ∧
    (store.set now value stale (some (some s))).2.getSnapshotAt (some s) = value ∧
    ((store2.set now2 value2 stale2 scopeOpt2).1 ≠ [] →
      nullishScope scopeOpt2 store2.activeAccountId = store2.activeAccountId) := by
  have hne : some s ≠ store.activeAccountId := by
    intro h
    exact hkey (by rw [← h]; rfl)
  refine ⟨?_, ?_, ?_, ?_⟩
  · simp [ResourceStore.set, nullishScope, hne]
  · have hkey' : scopeKey store.activeAccountId ≠ scopeKey (some s) := by
      intro h
      exact hkey (by rw [h]; rfl)
    simp only [ResourceStore.set, ResourceStore.getSnapshot, ResourceStore.getSnapshotAt,
      nullishScope]
    rw [updState_other _ _ _ _ hkey']
  · simp only [ResourceStore.set, ResourceStore.getSnapshotAt, nullishScope]
    rw [updState_same]
  · intro h
    by_cases hc : nullishScope scopeOpt2 store2.activeAccountId = store2.activeAccountId
    · exact hc
    · exact absurd (by simp [ResourceStore.set, hc]) h

/-- Witness for C4 (amended) at a concrete store: writing scope `"x"` while
`"b"` is active is silent and isolated; writing the active scope (absent
`scopeId`) does notify, and its resolved scope is the active one. -/
theorem scope_isolation_amended_witness :
    "x" ≠ scopeKey natStoreB.activeAccountId ∧
    (natStoreB.set 5 (some 7) false (some (some "x"))).1 = [] ∧
    (natStoreB.set 5 (some 7) false (some (some "x"))).2.getSnapshot = natStoreB.getSnapshot ∧
    (natStoreB.set 5 (some 7) false (some (some "x"))).2.getSnapshotAt (some "x") = some 7 ∧
    (natStoreB.set 5 (some 7) false none).1 ≠ [] ∧
    nullishScope none natStoreB.activeAccountId = natStoreB.activeAccountId :=
  ⟨by decide,
    (scope_isolation_amended natStoreB 5 (some 7) false "x" natStoreB 5 (some 7) false none
      (by decide)).1,
    (scope_isolation_amended natStoreB 5 (some 7) false "x" natStoreB 5 (some 7) false none
      (by decide)).2.1,
    (scope_isolation_amended natStoreB 5 (some 7) false "x" natStoreB 5 (some 7) false none
      (by decide)).2.2.1,
    by decide,
    (scope_isolation_amended natStoreB 5 (some 7) false "x" natStoreB 5 (some 7) false none
      (by decide)).2.2.2 (by decide)⟩

/-- C5: Singleton registry identity.  For a key not yet registered, the first
`registerSingleton` call runs its factory and stores the result; a second call
with a different factory returns the identical instance without running its
factory and leaves the registry unchanged; `getSingleton` returns the instance
without constructing, and `undefined` (`none`) for a never-registered key. -/
theorem registry_identity {V : Type} (truthy : V → Bool) (r0 : Registry V) (key : String)
    (f1 f2 : Unit → V) (habs : r0.lookup key = none) (htr : truthy (f1 ()) = true) :
    (registerSingleton truthy r0 key f1).1 = f1 () ∧
    (registerSingleton truthy r0 key f1).2.2 = true ∧
    (registerSingleton truthy (registerSingleton truthy r0 key f1).2.1 key f2).1 = f1 () ∧
    (registerSingleton truthy (registerSingleton truthy r0 key f1).2.1 key f2).2.2 = false ∧
    (registerSingleton truthy (registerSingleton truthy r0 key f1).2.1 key f2).2.1 =
      (registerSingleton truthy r0 key f1).2.1 ∧
    getSingleton (registerSingleton truthy r0 key f1).2.1 key = some (f1 ()) ∧
    getSingleton r0 key = none := by
  have h1 : registerSingleton truthy r0 key f1 =
      (f1 (), ⟨(key, f1 ()) :: r0.entries⟩, true) := by
    simp [registerSingleton, habs]
  have hlook : Registry.lookup (⟨(key, f1 ()) :: r0.entries⟩ : Registry V) key =
      some (f1 ()) := by
    simp [Registry.lookup, List.lookup]
  have h2 : registerSingleton truthy (⟨(key, f1 ()) :: r0.entries⟩ : Registry V) key f2 =
      (f1 (), ⟨(key, f1 ()) :: r0.entries⟩, false) := by
    simp [registerSingleton, hlook, htr]
  refine ⟨by rw [h1], by rw [h1], ?_, ?_, ?_, ?_, habs⟩
  · rw [h1]
    simpa using congrArg Prod.fst h2
  · rw [h1]
    simpa using congrArg (fun p => p.2.2) h2
  · rw [h1]
    simpa using congrArg (fun p => p.2.1) h2
  · rw [h1]
    simpa [getSingleton] using hlook

/-- Witness for C5 at a concrete registry over `Nat` values with truthiness
`n != 0`: key `"x"`, first factory returning 1, second returning 2. -/
theorem registry_identity_witness :
    ((⟨[]⟩ : Registry Nat).lookup "x" = none ∧ ((fun n => n != 0) (1 : Nat)) = true) ∧
    ((registerSingleton (fun n => n != 0) ⟨[]⟩ "x" (fun _ => 1)).1 = 1 ∧
      (registerSingleton (fun n => n != 0) ⟨[]⟩ "x" (fun _ => 1)).2.2 = true ∧
      (registerSingleton (fun n => n != 0)
        (registerSingleton (fun n => n != 0) ⟨[]⟩ "x" (fun _ => 1)).2.1 "x" (fun _ => 2)).1 = 1 ∧
      (registerSingleton (fun n => n != 0)
        (registerSingleton (fun n => n != 0) ⟨[]⟩ "x" (fun _ => 1)).2.1 "x"
        (fun _ => 2)).2.2 = false ∧
      (registerSingleton (fun n => n != 0)
        (registerSingleton (fun n => n != 0) ⟨[]⟩ "x" (fun _ => 1)).2.1 "x" (fun _ => 2)).2.1 =
        (registerSingleton (fun n => n != 0) ⟨[]⟩ "x" (fun _ => 1)).2.1 ∧
      getSingleton (registerSingleton (fun n => n != 0) ⟨[]⟩ "x" (fun _ => 1)).2.1 "x" =
        some 1 ∧
      getSingleton (⟨[]⟩ : Registry Nat) "x" = none) :=
  ⟨⟨by decide, by decide⟩,
    registry_identity (fun n => n != 0) ⟨[]⟩ "x" (fun _ => 1) (fun _ => 2)
      (by decide) (by decide)⟩


theorem alert_index_invariant :
    alertInvariant AlertStore.initial.cache ∧
    (∀ (st : AlertStore) (a : Alert),
      alertInvariant st.cache → alertInvariant (st.addAlert a).2.2.cache) ∧
    (∀ (st : AlertStore) (aid : String) (u : AlertUpdate),
      alertInvariant st.cache → alertInvariant (st.updateAlert aid u).2.2.cache) ∧
    (∀ (st : AlertStore) (aid : String),
      alertInvariant st.cache → alertInvariant (st.removeAlert aid).2.2.cache) ∧
    (∀ (st : AlertStore), alertInvariant st.cache → alertInvariant st.clearAll.2.cache) ∧
    (∀ (st : AlertStore), alertInvariant st.cache → alertInvariant st.clearDismissable.2.cache) ∧
    (∀ (st : AlertStore), alertInvariant st.cache → alertInvariant st.nextAlert.2.cache) ∧
    (∀ (st : AlertStore), alertInvariant st.cache → alertInvariant st.previousAlert.2.cache) ∧
    (∀ (st : AlertStore) (i : Int),
      alertInvariant st.cache → alertInvariant (st.setCurrentIndex i).2.cache) := by
  refine ⟨by decide, ?_, ?_, ?_, ?_, ?_, ?_, ?_, ?_⟩
  · -- addAlert appends and keeps the index
    intro st a hinv
    unfold AlertStore.addAlert
    simp only [alertInvariant] at hinv ⊢
    simp only [List.length_append, List.length_cons, List.length_nil]
    refine ⟨fun hp => ?_, fun hz => ?_⟩ <;> (push_cast at *; try omega)
  · -- updateAlert replaces one element in place
    intro st aid u hinv
    unfold AlertStore.updateAlert
    cases hidx : st.cache.alerts.findIdx? (fun a => a.id == aid) with
    | none => simpa using hinv
    | some i =>
        simp only [alertInvariant] at hinv ⊢
        simp only [List.length_set]
        exact hinv
  · -- removeAlert filters and re-clamps
    intro st aid hinv
    have hle := List.length_filter_le (fun a => !(a.id == aid)) st.cache.alerts
    unfold AlertStore.removeAlert
    simp only [alertInvariant] at hinv ⊢
    split_ifs with h1 h2 h3 <;> dsimp only <;>
      refine ⟨fun hp => ?_, fun hz => ?_⟩ <;> push_cast at * <;> omega
  · -- clearAll resets to the initial list
    intro st hinv
    simp [AlertStore.clearAll, alertInvariant]
  · -- clearDismissable filters and re-clamps
    intro st hinv
    have hle := List.length_filter_le (fun a => !a.dismissable) st.cache.alerts
    unfold AlertStore.clearDismissable
    simp only [alertInvariant] at hinv ⊢
    split_ifs with h1 h2 h3 <;> dsimp only <;>
      refine ⟨fun hp => ?_, fun hz => ?_⟩ <;> push_cast at * <;> omega
  · -- nextAlert increments modulo the length
    intro st hinv
    unfold AlertStore.nextAlert
    simp only [alertInvariant] at hinv ⊢
    split_ifs with h0
    · exact hinv
    · dsimp only
      refine ⟨fun hp => ?_, fun hz => absurd hz h0⟩
      constructor
      · exact Int.emod_nonneg _ (by exact_mod_cast h0)
      · exact Int.emod_lt_of_pos _ (by exact_mod_cast Nat.pos_of_ne_zero h0)
  · -- previousAlert decrements circularly
    intro st hinv
    unfold AlertStore.previousAlert
    simp only [alertInvariant] at hinv ⊢
    split_ifs with h0 h1 <;> dsimp only <;>
      refine ⟨fun hp => ?_, fun hz => ?_⟩ <;> push_cast at * <;> omega
  · -- setCurrentIndex validates the range
    intro st i hinv
    unfold AlertStore.setCurrentIndex
    simp only [alertInvariant] at hinv ⊢
    split_ifs with h0 <;> dsimp only <;>
      refine ⟨fun hp => ?_, fun hz => ?_⟩ <;> push_cast at * <;> omega

/-- Witness for C6 at a concrete store: removing the last alert of a
two-element list while it is displayed re-clamps the index to 0. -/
theorem alert_index_invariant_witness :
    alertInvariant
      ({ listeners := [], cache := { alerts := [⟨"a", "info", "m", true, 0⟩,
          ⟨"b", "error", "n", false, 0⟩], currentIndex := 1 } } : AlertStore).cache ∧
    alertInvariant
      (({ listeners := [], cache := { alerts := [⟨"a", "info", "m", true, 0⟩,
          ⟨"b", "error", "n", false, 0⟩], currentIndex := 1 } } : AlertStore).removeAlert
        "b").2.2.cache :=
  ⟨by decide,
    alert_index_invariant.2.2.2.1
      { listeners := [], cache := { alerts := [⟨"a", "info", "m", true, 0⟩,
          ⟨"b", "error", "n", false, 0⟩], currentIndex := 1 } } "b" (by decide)⟩

/-- C7: Subscribe-then-replay.  For the resource store, the alert store and
the account scope alike, `subscribe(fn)` invokes `fn` synchronously exactly
once with the current snapshot of the active scope before returning,
regardless of cache state (the store is arbitrary, including a null/empty
cache), and returns a disposer that removes the listener. -/
theorem subscribe_replay :
    (∀ (T : Type) (store : ResourceStore T) (l : Nat),
      (store.subscribe l).1 = [(l, store.getSnapshot)] ∧
      l ∉ ((store.subscribe l).2.unsubscribe l).listeners) ∧
    (∀ (st : AlertStore) (l : Nat),
      (st.subscribe l).1 = [(l, st.getSnapshot)] ∧
      l ∉ ((st.subscribe l).2.unsubscribe l).listeners) ∧
    (∀ (sc : AccountScope) (l : Nat),
      (sc.subscribeActiveAccount l).1 = [(l, sc.getActiveAccountId)] ∧
      l ∉ ((sc.subscribeActiveAccount l).2.unsubscribeActiveAccount l).listeners) := by
  refine ⟨fun T store l => ⟨rfl, ?_⟩, fun st l => ⟨rfl, ?_⟩, fun sc l => ⟨rfl, ?_⟩⟩
  · simp [ResourceStore.subscribe, ResourceStore.unsubscribe, removeListener, List.mem_filter]
  · simp [AlertStore.subscribe, AlertStore.unsubscribe, removeListener, List.mem_filter]
  · simp [AccountScope.subscribeActiveAccount, AccountScope.unsubscribeActiveAccount,
      removeListener, List.mem_filter]

/-- C8: Change-only scope notification.  `setActiveAccountId(id)` leaves the
scope state untouched and invokes no listener when the id equals the current
one, and otherwise stores the new id, keeps the listener set, and synchronously
invokes every subscribed listener with the new id. -/
theorem scope_change_notification (sc : AccountScope) (accountId : Option String) :
    (sc.currentAccountId = accountId → sc.setActiveAccountId accountId = (sc, [])) ∧
    (sc.currentAccountId ≠ accountId →
      (sc.setActiveAccountId accountId).1.currentAccountId = accountId ∧
      (sc.setActiveAccountId accountId).1.listeners = sc.listeners ∧
      (sc.setActiveAccountId accountId).2 = sc.listeners.map (fun l => (l, accountId))) := by
  constructor
  · intro h
    simp [AccountScope.setActiveAccountId, h]
  · intro h
    simp [AccountScope.setActiveAccountId, h]

/-- Witness for C8 at a concrete scope: setting the same id `"a"` is silent;
setting `"b"` updates the id and notifies both listeners with it. -/
theorem scope_change_notification_witness :
    ((⟨some "a", [0, 1]⟩ : AccountScope).currentAccountId = some "a" ∧
      (⟨some "a", [0, 1]⟩ : AccountScope).setActiveAccountId (some "a") =
        (⟨some "a", [0, 1]⟩, [])) ∧
    ((⟨some "a", [0, 1]⟩ : AccountScope).currentAccountId ≠ some "b" ∧
      ((⟨some "a", [0, 1]⟩ : AccountScope).setActiveAccountId (some "b")).1.currentAccountId =
        some "b" ∧
      ((⟨some "a", [0, 1]⟩ : AccountScope).setActiveAccountId (some "b")).1.listeners =
        [0, 1] ∧
      ((⟨some "a", [0, 1]⟩ : AccountScope).setActiveAccountId (some "b")).2 =
        [0, 1].map (fun l => (l, some "b"))) :=
  ⟨⟨by decide, (scope_change_notification ⟨some "a", [0, 1]⟩ (some "a")).1 (by decide)⟩,
    ⟨by decide, (scope_change_notification ⟨some "a", [0, 1]⟩ (some "b")).2 (by decide)⟩⟩

/-- The try/catch loop invokes every recorded call, whatever the listener
bodies do. -/
theorem deliver_fst {A : Type} (behave : Nat → A → Except String Unit)
    (ems : List (Nat × A)) : (deliver behave ems).1 = ems := by
  induction ems with
  | nil => rfl
  | cons p rest ih =>
      obtain ⟨l, v⟩ := p
      unfold deliver
      cases behave l v <;> simp [ih]

/-- C9: Listener exception isolation.  In the notification loop shared by the
resource-store emit, the alert-store emit and the account-scope change, a
subscriber that throws is caught (its error only logged) and every remaining
subscriber is still invoked; composing each mutating operation with the
delivery shows the state change of the operation is intact regardless of listener
behaviour. -/
theorem listener_exception_isolation :
    (∀ (A : Type) (behave : Nat → A → Except String Unit) (ems : List (Nat × A)),
      (deliver behave ems).1 = ems) ∧
    (∀ (T : Type) (store : ResourceStore T) (behave : Nat → Option T → Except String Unit)
      (now : Int) (value : Option T) (stale : Bool) (scopeOpt : Option (Option String)),
      (store.setDeliver behave now value stale scopeOpt).1 =
        (store.set now value stale scopeOpt).2 ∧
      (store.setDeliver behave now value stale scopeOpt).2.1 =
        (store.set now value stale scopeOpt).1) ∧
    (∀ (st : AlertStore) (behave : Nat → AlertState → Except String Unit) (a : Alert),
      (st.addAlertDeliver behave a).1 = (st.addAlert a).2.2 ∧
      (st.addAlertDeliver behave a).2.1 = (st.addAlert a).2.1) ∧
    (∀ (sc : AccountScope) (behave : Nat → Option String → Except String Unit)
      (accountId : Option String),
      (sc.setActiveAccountIdDeliver behave accountId).1 =
        (sc.setActiveAccountId accountId).1 ∧
      (sc.setActiveAccountIdDeliver behave accountId).2.1 =
        (sc.setActiveAccountId accountId).2) := by
  refine ⟨fun A behave ems => deliver_fst behave ems, ?_, ?_, ?_⟩
  · intro T store behave now value stale scopeOpt
    exact ⟨rfl, deliver_fst behave _⟩
  · intro st behave a
    exact ⟨rfl, deliver_fst behave _⟩
  · intro sc behave accountId
    exact ⟨rfl, deliver_fst behave _⟩

/-- C10: Null-scope write aliasing.  `set`, `clear` and `markStale` resolve
their scope as `options.scopeId ?? activeAccountId`, so an explicit
`scopeId: null` behaves exactly like an absent one; consequently
`ensure({scopeId: null})` while the non-null account `b` is active fetches
under the null scope but stores the fetched value under `b` (notifying the
subscribers), leaving the cache of the null-scope entry null with `updatedAt` 0. -/
theorem null_scope_aliasing {T : Type} (m : Machine T) (b : String) (t t2 : Int) (force : Bool)
    (v : T) (store : ResourceStore T) (now : Int) (value : Option T) (stale : Bool)
    (hactive : m.store.activeAccountId = some b)
    (hsent : b ≠ "__no_active_account__")
    (hnull : m.store.states (scopeKey none) = StoreState.empty T) :
    store.set now value stale (some none) = store.set now value stale none ∧
    store.clear now (some none) = store.clear now none ∧
    store.markStale (some none) = store.markStale none ∧
    (m.ensure t force (some none)).1 = EnsureResult.promise m.nextPid ∧
    ((m.ensure t force (some none)).2.settleOk t2 none m.nextPid v).1 =
      m.store.listeners.map (fun l => (l, some v)) ∧
    ((m.ensure t force (some none)).2.settleOk t2 none m.nextPid v).2.store.getSnapshotAt
      (some b) = some v ∧
    ((m.ensure t force (some none)).2.settleOk t2 none m.nextPid v).2.store.states
      (scopeKey none) = StoreState.empty T := by
  have hin : (m.scopeState (some none)).inflight = none := by
    simp [Machine.scopeState, ensureScope, hnull, StoreState.empty]
  have hns : force = true ∨ isStale m.store.staleTime t (m.scopeState (some none)) = true := by
    right
    simp [Machine.scopeState, ensureScope, hnull, isStale, StoreState.empty]
  have hstep := ensure_starts_fetch m t force (some none) hin hns
  refine ⟨rfl, rfl, rfl, ?_, ?_, ?_, ?_⟩
  · rw [hstep]
  · rw [hstep]
    simp [Machine.settleOk, ResourceStore.set, nullishScope, hactive]
  · rw [hstep]
    have hsent' : "__no_active_account__" ≠ b := Ne.symm hsent
    simp [Machine.settleOk, ResourceStore.set, ResourceStore.getSnapshotAt, nullishScope,
      ensureScope, hactive, updState, scopeKey, hsent, hsent']
  · rw [hstep]
    have hsent' : "__no_active_account__" ≠ b := Ne.symm hsent
    simp [Machine.settleOk, ResourceStore.set, nullishScope, ensureScope, hactive, updState,
      scopeKey, hsent, hsent', Machine.scopeState]
    simp [scopeKey] at hnull
    simp [hnull, StoreState.empty]

/-- Witness for C10 at a concrete machine: active account `"b"`, explicit
null-scope `ensure` resolved with value 42. -/
theorem null_scope_aliasing_witness :
    (natMachineB.store.activeAccountId = some "b" ∧
      "b" ≠ "__no_active_account__" ∧
      natMachineB.store.states (scopeKey none) = StoreState.empty Nat) ∧
    (natStoreB.set 5 (some 7) true (some none) = natStoreB.set 5 (some 7) true none ∧
      natStoreB.clear 5 (some none) = natStoreB.clear 5 none ∧
      natStoreB.markStale (some none) = natStoreB.markStale none ∧
      (natMachineB.ensure 0 false (some none)).1 = EnsureResult.promise natMachineB.nextPid ∧
      ((natMachineB.ensure 0 false (some none)).2.settleOk 5 none natMachineB.nextPid 42).1 =
        natMachineB.store.listeners.map (fun l => (l, some 42)) ∧
      ((natMachineB.ensure 0 false (some none)).2.settleOk 5 none
          natMachineB.nextPid 42).2.store.getSnapshotAt (some "b") = some 42 ∧
      ((natMachineB.ensure 0 false (some none)).2.settleOk 5 none
          natMachineB.nextPid 42).2.store.states (scopeKey none) = StoreState.empty Nat) :=
  ⟨⟨by decide, by decide, by decide⟩,
    null_scope_aliasing natMachineB "b" 0 5 false 42 natStoreB 5 (some 7) true
      (by decide) (by decide) (by decide)⟩
